import Mathlib

/-!
Shallow embedding of `resolvconffs` (src/src/main.rs): a single-inode FUSE
passthrough filesystem whose sole file is mapped, per request, to a backing
file chosen from the network namespace of the calling process.

Two parts are modelled:
  * `NetnsMapper.map` — the namespace-aware resolver (main.rs lines 280-330),
    over an abstract filesystem environment (`MapperEnv`) supplying the
    outcomes of `read_link`, `metadata` and `copy`;
  * `FileMapperFs` — the generic engine implementing the FUSE callbacks
    (`getattr`, `open`, `release`, `fsync`, `read`, `write`, `setattr`,
    main.rs lines 106-246), over an abstract syscall environment (`SysEnv`).
    Each operation returns its protocol reply together with the list of
    underlying syscalls it performed.
-/

namespace Resolvconffs

/-- Rust `str::split_once(c)`: split at the first occurrence of `c`,
returning the parts before and after it, or `none` when `c` is absent. -/
def splitOnce (c : Char) : List Char → Option (List Char × List Char)
  | [] => none
  | x :: xs =>
    if x = c then some ([], xs)
    else
      match splitOnce c xs with
      | some (a, b) => some (x :: a, b)
      | none => none

/-- Rust `str::trim_start_matches(c)`: drop every leading occurrence of `c`. -/
def trimStartMatches (c : Char) : List Char → List Char
  | [] => []
  | x :: xs => if x = c then trimStartMatches c xs else x :: xs

/-- Rust `str::trim_end_matches(c)`: drop every trailing occurrence of `c`. -/
def trimEndMatches (c : Char) (l : List Char) : List Char :=
  (trimStartMatches c l.reverse).reverse

/-- Split a file name at its last `.`: `some (stem, ext)` when a dot exists,
`none` otherwise.  Helper for the `Path::set_extension` model. -/
def splitLastDot : List Char → Option (List Char × List Char)
  | [] => none
  | c :: cs =>
    match splitLastDot cs with
    | some (pre, suf) => some (c :: pre, suf)
    | none => if c = '.' then some ([], cs) else none

/-- Rust `PathBuf::set_extension(ext)` restricted to a one-component file
name.  The extension of `name` is the part after its last `.`, provided the
stem before that dot is non-empty (so `.conf` has no extension); it is
replaced by `ext` (appended with a fresh `.`). -/
def setExtension (name ext : String) : String :=
  let stem :=
    match splitLastDot name.toList with
    | some (pre, _) => if pre = [] then name.toList else pre
    | none => name.toList
  String.mk (if ext.isEmpty then stem else stem ++ '.' :: ext.toList)

/-- Content of a symlink as returned by `std::fs::read_link`: an `OsString`,
which is either valid UTF-8 or not (`OsStr::to_str` fails on the latter). -/
inductive OsString where
  | utf8 (s : String)
  | nonUtf8
deriving DecidableEq, Repr

/-- Rust `OsStr::to_str`. -/
def OsString.to_str : OsString → Option String
  | .utf8 s => some s
  | .nonUtf8 => none

/-- Caller identity attached by the kernel to every FUSE request
(main.rs `UidGidPid`). -/
structure UidGidPid where
  uid : Nat
  gid : Nat
  pid : Nat
deriving DecidableEq, Repr

/-- Configuration of the namespace-aware resolver (main.rs `NetnsMapper`).
Paths are rendered as strings; `extension` plays the role of the
`extension : PathBuf` option (its `OsStr` content). -/
structure NetnsMapper where
  backing_directory : String
  extension : String
  default_file : Option String
  procfs : String
deriving DecidableEq, Repr

/-- Abstract filesystem environment seen by `NetnsMapper.map`:
  * `read_link p` — result of `std::fs::read_link(p)` (`none` = error);
  * `metadata_ok p` — whether `std::fs::metadata(p)` succeeds;
  * `copy_ok src dst` — whether `std::fs::copy(src, dst)` succeeds. -/
structure MapperEnv where
  read_link : String → Option OsString
  metadata_ok : String → Bool
  copy_ok : String → String → Bool

/-- Result of one call to the resolver: the returned `Option<PathBuf>`
together with the list of `std::fs::copy` invocations it performed,
each recorded as (source, destination, outcome). -/
structure MapResult where
  result : Option String
  copies : List (String × String × Bool)
deriving DecidableEq, Repr

/-- The target path built at main.rs lines 314-319 from the bracket-trimmed
part `ns` after the `:`.  `nsonly` is pushed as a single path component (the
kernel's namespace identifiers contain neither `/` nor `.`, and are
non-empty, so `PathBuf` corner cases for such names do not arise). -/
def NetnsMapper.targetfileOf (m : NetnsMapper) (ns : List Char) : String :=
  let nsonly := trimStartMatches '[' (trimEndMatches ']' ns)
  let fname :=
    if m.extension.length > 0 then setExtension (String.mk nsonly) m.extension
    else String.mk nsonly
  m.backing_directory ++ "/" ++ fname

/-- `NetnsMapper::map` (main.rs lines 280-330): read
`<procfs>/<pid>/ns/net` as a symlink, require UTF-8 content of the shape
`net:<rest>` (split at the first `:`, prefix must equal `net`), trim `[`/`]`
brackets from the rest, build `<backing_directory>/<nsonly>` with the
configured extension, seed it from `default_file` when the target's
metadata query fails, and return the target path.  A failed copy is only
logged (recorded in `copies`); it does not change the returned path. -/
def NetnsMapper.map (m : NetnsMapper) (env : MapperEnv) (rq : UidGidPid) :
    MapResult :=
  let netnslink := m.procfs ++ "/" ++ toString rq.pid ++ "/ns/net"
  match env.read_link netnslink with
  | none => ⟨none, []⟩
  | some content =>
    match content.to_str with
    | none => ⟨none, []⟩
    | some netns =>
      match splitOnce ':' netns.toList with
      | none => ⟨none, []⟩
      | some (net, ns) =>
        if String.mk net ≠ "net" then ⟨none, []⟩
        else
          let targetfile := m.targetfileOf ns
          match m.default_file with
          | some deffile =>
            if env.metadata_ok targetfile then ⟨some targetfile, []⟩
            else ⟨some targetfile,
                  [(deffile, targetfile, env.copy_ok deffile targetfile)]⟩
          | none => ⟨some targetfile, []⟩

/-! ## The single-inode passthrough engine (`FileMapperFs`) -/

/-- Errno values travel as the `i32` of `nix::errno::Errno`. -/
abbrev Errno := Int

/-- `libc::ENOENT`. -/
def ENOENT : Errno := 2

/-- Rust `i64 as u64` (two's-complement reinterpretation). -/
def i64_as_u64 (x : Int) : Nat := (x.emod (2 ^ 64)).toNat

/-- Rust `i64 as u32` (truncation to the low 32 bits). -/
def i64_as_u32 (x : Int) : Nat := (x.emod (2 ^ 32)).toNat

/-- Rust `u64 as i32` (truncation then signed reinterpretation). -/
def u64_as_i32 (x : Nat) : Int :=
  let r : Nat := x % 2 ^ 32
  if r < 2 ^ 31 then (r : Int) else (r : Int) - 2 ^ 32

/-- Rust `i32 as u64` (sign extension then reinterpretation). -/
def i32_as_u64 (x : Int) : Nat := (x.emod (2 ^ 64)).toNat

/-- Rust `u64 as i64` (two's-complement reinterpretation). -/
def u64_as_i64 (x : Nat) : Int :=
  if x < 2 ^ 63 then (x : Int) else (x : Int) - 2 ^ 64

/-- The fields of `nix::sys::stat::FileStat` read by `getattr_impl`
(C `struct stat` on Linux: sizes/times are `i64`, ids/mode are `u32`). -/
structure StatData where
  st_size : Int
  st_blocks : Int
  st_atime : Int
  st_atime_nsec : Int
  st_mtime : Int
  st_mtime_nsec : Int
  st_ctime : Int
  st_ctime_nsec : Int
  st_mode : Nat
  st_uid : Nat
  st_gid : Nat
  st_blksize : Int
deriving DecidableEq, Repr

/-- `fuser::FileType` values occurring in the program. -/
inductive FileType where
  | regularFile
deriving DecidableEq, Repr

/-- `fuser::FileAttr` as filled in by `getattr_impl`; timestamps are
(seconds, nanoseconds) offsets from the Unix epoch. -/
structure FileAttr where
  ino : Nat
  size : Nat
  blocks : Nat
  atime : Nat × Nat
  mtime : Nat × Nat
  ctime : Nat × Nat
  crtime : Nat × Nat
  kind : FileType
  perm : Nat
  nlink : Nat
  uid : Nat
  gid : Nat
  rdev : Nat
  blksize : Nat
  flags : Nat
deriving DecidableEq, Repr

/-- One underlying syscall performed by an engine operation, with its
arguments (for `pwrite`, the length of the buffer handed over). -/
inductive Syscall where
  | stat (path : String)
  | openat (path : String) (flags : Int)
  | close (fd : Int)
  | fsync (fd : Int)
  | fdatasync (fd : Int)
  | pread (fd : Int) (len : Nat) (offset : Int)
  | pwrite (fd : Int) (len : Nat) (offset : Int)
  | ftruncate (fd : Int) (size : Int)
  | truncate (path : String) (size : Int)
deriving DecidableEq, Repr

/-- Abstract outcome model for the syscalls the engine performs.  `pread`
returns the bytes obtained by a single positioned read (the real syscall
yields at most the requested number of bytes); `pwrite` returns the
`usize` count of bytes written. -/
structure SysEnv where
  stat : String → Except Errno StatData
  open_file : String → Int → Except Errno Int
  close : Int → Except Errno Unit
  fsync : Int → Except Errno Unit
  fdatasync : Int → Except Errno Unit
  pread : Int → Nat → Int → Except Errno (List Nat)
  pwrite : Int → Nat → Int → Except Errno Nat
  truncate : String → Int → Except Errno Unit
  ftruncate : Int → Int → Except Errno Unit

/-- `fuser::ReplyAttr`: `reply.error(e)` or `reply.attr(&ttl, &attr)`
(ttl in seconds). -/
inductive ReplyAttr where
  | error (e : Errno)
  | attr (ttl : Nat) (a : FileAttr)
deriving DecidableEq, Repr

/-- `fuser::ReplyOpen`: `reply.error(e)` or `reply.opened(fh, flags)`. -/
inductive ReplyOpen where
  | error (e : Errno)
  | opened (fh : Nat) (flags : Nat)
deriving DecidableEq, Repr

/-- `fuser::ReplyEmpty`. -/
inductive ReplyEmpty where
  | error (e : Errno)
  | ok
deriving DecidableEq, Repr

/-- `fuser::ReplyData`. -/
inductive ReplyData where
  | error (e : Errno)
  | data (bytes : List Nat)
deriving DecidableEq, Repr

/-- `fuser::ReplyWrite`: `reply.written(n)` carries a `u32`. -/
inductive ReplyWrite where
  | error (e : Errno)
  | written (n : Nat)
deriving DecidableEq, Repr

/-- The `fuser::consts::FOPEN_DIRECT_IO` open-reply flag (= 1 << 0). -/
def fopenDirectIoFlag : Nat := 1

/-- `FileMapperFs<F>`: the engine parameterized by a `Mapper`
(`FnMut(UidGidPid) -> Option<PathBuf>`; the program instantiates it with
the pure closure `|rq| mapper.map(rq)`). -/
structure FileMapperFs where
  mapper : UidGidPid → Option String

/-- `FileMapperFs::get_backing_file`: run the mapper on the request's
caller identity; `None` becomes `Err(ENOENT)`. -/
def FileMapperFs.get_backing_file (fs : FileMapperFs) (rq : UidGidPid) :
    Except Errno String :=
  match fs.mapper rq with
  | some x => .ok x
  | none => .error ENOENT

/-- `getattr_impl` (main.rs lines 78-104): stat the backing file and
translate the result into a `FileAttr` reply with a 3600 s ttl; `crtime`
is reported as the epoch, `nlink` 1, `rdev` 0, `flags` 0. -/
def getattr_impl (env : SysEnv) (f : String) (ino : Nat) :
    ReplyAttr × List Syscall :=
  match env.stat f with
  | .error e => (.error e, [.stat f])
  | .ok st =>
    (.attr 3600
      { ino := ino
        size := i64_as_u64 st.st_size
        blocks := i64_as_u64 st.st_blocks
        atime := (i64_as_u64 st.st_atime, i64_as_u32 st.st_atime_nsec)
        mtime := (i64_as_u64 st.st_mtime, i64_as_u32 st.st_mtime_nsec)
        ctime := (i64_as_u64 st.st_ctime, i64_as_u32 st.st_ctime_nsec)
        crtime := (0, 0)
        kind := .regularFile
        perm := st.st_mode % 2 ^ 16
        nlink := 1
        uid := st.st_uid
        gid := st.st_gid
        rdev := 0
        blksize := i64_as_u32 st.st_blksize
        flags := 0 },
     [.stat f])

/-- `Filesystem::getattr` (main.rs lines 107-114): for inode 1 resolve the
backing file and stat it; any other inode is answered `ENOENT` with no
syscall. -/
def FileMapperFs.getattr (fs : FileMapperFs) (env : SysEnv) (rq : UidGidPid)
    (ino : Nat) : ReplyAttr × List Syscall :=
  if ino = 1 then
    match fs.get_backing_file rq with
    | .error e => (.error e, [])
    | .ok bf => getattr_impl env bf ino
  else (.error ENOENT, [])

/-- `Filesystem::open` (main.rs lines 116-134): for inode 1 resolve the
backing file and open it with the caller's flags (mode 0o666 on creation);
the raw descriptor is returned as the handle with the direct-I/O hint.
Any other inode is answered `ENOENT` with no syscall.  (The
`OFlag::from_bits_truncate` step keeps only recognised flag bits; flags
are carried through verbatim here.) -/
def FileMapperFs.open' (fs : FileMapperFs) (env : SysEnv) (rq : UidGidPid)
    (ino : Nat) (flags : Int) : ReplyOpen × List Syscall :=
  if ino ≠ 1 then (.error ENOENT, [])
  else
    match fs.get_backing_file rq with
    | .error e => (.error e, [])
    | .ok bf =>
      match env.open_file bf flags with
      | .ok fh => (.opened (i32_as_u64 fh) fopenDirectIoFlag, [.openat bf flags])
      | .error e => (.error e, [.openat bf flags])

/-- `Filesystem::release` (main.rs lines 136-151): close the descriptor
named by the handle (`_fh as i32`); the inode argument is ignored. -/
def FileMapperFs.release (_fs : FileMapperFs) (env : SysEnv) (_rq : UidGidPid)
    (_ino : Nat) (fh : Nat) (_flags : Int) (_flush : Bool) :
    ReplyEmpty × List Syscall :=
  let fd := u64_as_i32 fh
  match env.close fd with
  | .ok _ => (.ok, [.close fd])
  | .error e => (.error e, [.close fd])

/-- `Filesystem::fsync` (main.rs lines 153-173): `fdatasync` or `fsync` the
descriptor depending on the datasync flag; the inode argument is ignored. -/
def FileMapperFs.fsync (_fs : FileMapperFs) (env : SysEnv) (_rq : UidGidPid)
    (_ino : Nat) (fh : Nat) (datasync : Bool) : ReplyEmpty × List Syscall :=
  let fd := u64_as_i32 fh
  if datasync then
    match env.fdatasync fd with
    | .ok _ => (.ok, [.fdatasync fd])
    | .error e => (.error e, [.fdatasync fd])
  else
    match env.fsync fd with
    | .ok _ => (.ok, [.fsync fd])
    | .error e => (.error e, [.fsync fd])

/-- `Filesystem::read` (main.rs lines 175-191): clamp the requested size to
4096·16 bytes, allocate a zeroed buffer of that size, do one positioned
read into it and reply with `buf[0..ret]`; the inode argument is ignored.
`env.pread` returns the bytes the syscall placed in the buffer (at most
the clamped size for a real `pread`). -/
def FileMapperFs.read (_fs : FileMapperFs) (env : SysEnv) (_rq : UidGidPid)
    (_ino : Nat) (fh : Nat) (offset : Int) (size : Nat) (_flags : Int) :
    ReplyData × List Syscall :=
  let fd := u64_as_i32 fh
  let size' := min size (4096 * 16)
  match env.pread fd size' offset with
  | .ok bs =>
    let buf := bs.take size' ++ List.replicate (size' - bs.length) 0
    (.data (buf.take bs.length), [.pread fd size' offset])
  | .error e => (.error e, [.pread fd size' offset])

/-- `Filesystem::write` (main.rs lines 193-209): one positioned write of
the whole buffer; the returned `usize` count is truncated to `u32` in the
reply (`ret as u32`, the FIXME in the source); the inode argument is
ignored. -/
def FileMapperFs.write (_fs : FileMapperFs) (env : SysEnv) (_rq : UidGidPid)
    (_ino : Nat) (fh : Nat) (offset : Int) (data : List Nat) :
    ReplyWrite × List Syscall :=
  let fd := u64_as_i32 fh
  match env.pwrite fd data.length offset with
  | .ok ret => (.written (ret % 2 ^ 32), [.pwrite fd data.length offset])
  | .error e => (.error e, [.pwrite fd data.length offset])

/-- `Filesystem::setattr` (main.rs lines 211-245): for inode 1 resolve the
backing file; when a new size is given, `ftruncate` the handle if one is
supplied, else `truncate` the resolved path; then reply as `getattr_impl`
does.  Any other inode is answered `ENOENT` with no syscall.  The mode /
uid / gid / timestamp parameters are ignored by the source and omitted. -/
def FileMapperFs.setattr (fs : FileMapperFs) (env : SysEnv) (rq : UidGidPid)
    (ino : Nat) (size : Option Nat) (fh : Option Nat) :
    ReplyAttr × List Syscall :=
  if ino ≠ 1 then (.error ENOENT, [])
  else
    match fs.get_backing_file rq with
    | .error e => (.error e, [])
    | .ok bf =>
      match size with
      | some sz =>
        match fh with
        | some h =>
          let fd := u64_as_i32 h
          match env.ftruncate fd (u64_as_i64 sz) with
          | .error e => (.error e, [.ftruncate fd (u64_as_i64 sz)])
          | .ok _ =>
            let r := getattr_impl env bf ino
            (r.1, .ftruncate fd (u64_as_i64 sz) :: r.2)
        | none =>
          match env.truncate bf (u64_as_i64 sz) with
          | .error e => (.error e, [.truncate bf (u64_as_i64 sz)])
          | .ok _ =>
            let r := getattr_impl env bf ino
            (r.1, .truncate bf (u64_as_i64 sz) :: r.2)
      | none => getattr_impl env bf ino

/-! ## Concrete instances used by witnesses and counterexamples -/

/-- A mapper that always resolves to one fixed backing file. -/
def fsW : FileMapperFs := ⟨fun _ => some "/backing/file.conf"⟩

/-- A mapper that never resolves (resolution failure on every request). -/
def fsNone : FileMapperFs := ⟨fun _ => none⟩

/-- A sample caller identity. -/
def rqW : UidGidPid := ⟨0, 0, 42⟩

/-- A sample stat result for the backing file. -/
def statW : StatData := ⟨10, 8, 100, 1, 200, 2, 300, 3, 0o100644, 5, 6, 4096⟩

/-- A syscall environment in which every call succeeds: `stat` yields
`statW`, `open` yields descriptor 7, `pread` yields one byte `[7]`, and
`pwrite` reports the full buffer length written. -/
def envW : SysEnv where
  stat := fun _ => .ok statW
  open_file := fun _ _ => .ok 7
  close := fun _ => .ok ()
  fsync := fun _ => .ok ()
  fdatasync := fun _ => .ok ()
  pread := fun _ _ _ => .ok [7]
  pwrite := fun _ len _ => .ok len
  truncate := fun _ _ => .ok ()
  ftruncate := fun _ _ => .ok ()

/-- Like `envW`, but `pwrite` reports 2^32 + 5 bytes written. -/
def envBig : SysEnv :=
  { envW with pwrite := fun _ _ _ => .ok 4294967301 }

/-- The resolver configuration of the spec's scenario: backing directory
`/etc/netns-files`, extension `conf`, procfs root `/proc`. -/
def mapperW : NetnsMapper := ⟨"/etc/netns-files", "conf", none, "/proc"⟩

/-- Like `mapperW` but with a default/template file configured. -/
def mapperDef : NetnsMapper :=
  ⟨"/etc/netns-files", "conf", some "/etc/default.conf", "/proc"⟩

/-- Filesystem state where pid 7's netns symlink reads `net:123`
(well-formed prefix, missing brackets); nothing else readable. -/
def menvNoBrackets : MapperEnv :=
  ⟨fun p => if p = "/proc/7/ns/net" then some (.utf8 "net:123") else none,
   fun _ => false, fun _ _ => false⟩

/-- Filesystem state where pid 7's netns symlink reads `foo:[123]`
(wrong prefix). -/
def menvFoo : MapperEnv :=
  ⟨fun p => if p = "/proc/7/ns/net" then some (.utf8 "foo:[123]") else none,
   fun _ => false, fun _ _ => false⟩

/-- Filesystem state of the spec's scenario: pid 42's netns symlink reads
`net:[4026531992]`; target files do not exist. -/
def menvScenario : MapperEnv :=
  ⟨fun p =>
     if p = "/proc/42/ns/net" then some (.utf8 "net:[4026531992]") else none,
   fun _ => false, fun _ _ => false⟩

/-- Like `menvScenario`, but every metadata query succeeds (the target
file already exists). -/
def menvExists : MapperEnv :=
  ⟨fun p =>
     if p = "/proc/42/ns/net" then some (.utf8 "net:[4026531992]") else none,
   fun _ => true, fun _ _ => true⟩

/-! ## Helper lemmas shared between claims -/

/-- When the netns symlink is readable, UTF-8, and parses as `net:<rest>`,
the resolver returns the constructed target path. -/
lemma map_success (m : NetnsMapper) (env : MapperEnv) (rq : UidGidPid)
    (s : String) (pre suf : List Char)
    (h : env.read_link (m.procfs ++ "/" ++ toString rq.pid ++ "/ns/net")
           = some (OsString.utf8 s))
    (hsp : splitOnce ':' s.toList = some (pre, suf))
    (hpre : String.mk pre = "net") :
    (m.map env rq).result = some (m.targetfileOf suf) := by
  unfold NetnsMapper.map
  dsimp only
  rw [h]
  dsimp only [OsString.to_str]
  rw [hsp]
  dsimp only
  rw [if_neg (by simp [hpre])]
  cases m.default_file with
  | none => rfl
  | some deffile =>
    by_cases hmo : env.metadata_ok (m.targetfileOf suf) <;> simp [hmo]

/-- The resolver's returned path does not depend on the outcomes of the
`metadata` and `copy` calls, only on the symlink content. -/
lemma map_result_env_indep (m : NetnsMapper) (rl : String → Option OsString)
    (mo mo' : String → Bool) (co co' : String → String → Bool)
    (rq : UidGidPid) :
    (m.map ⟨rl, mo, co⟩ rq).result = (m.map ⟨rl, mo', co'⟩ rq).result := by
  unfold NetnsMapper.map
  dsimp only
  cases hrl : rl (m.procfs ++ "/" ++ toString rq.pid ++ "/ns/net") with
  | none => rfl
  | some content =>
    cases content with
    | nonUtf8 => rfl
    | utf8 s =>
      dsimp only [OsString.to_str]
      cases hsp : splitOnce ':' s.toList with
      | none => rfl
      | some p =>
        obtain ⟨pre, suf⟩ := p
        dsimp only
        by_cases hpre : String.mk pre = "net"
        · rw [if_neg (by simp [hpre]), if_neg (by simp [hpre])]
          cases m.default_file with
          | none => rfl
          | some deffile =>
            by_cases h1 : mo (m.targetfileOf suf) <;>
              by_cases h2 : mo' (m.targetfileOf suf) <;> simp [h1, h2]
        · rw [if_pos (by simp [hpre]), if_pos (by simp [hpre])]

/-! ## Claims -/

/-- C1 (counterexample): the claim "every operation rejects inode numbers
other than 1 with ENOENT and performs no syscall" is false for `read` and
`release`: at inode 2, `read` replies with data after performing a `pread`,
and `release` performs a `close`. -/
theorem claim_C1_counterexample :
    (FileMapperFs.read fsW envW rqW 2 3 0 100 0).1 = ReplyData.data [7] ∧
    (FileMapperFs.read fsW envW rqW 2 3 0 100 0).2 = [Syscall.pread 3 100 0] ∧
    (FileMapperFs.release fsW envW rqW 2 3 0 false).2 = [Syscall.close 3] := by
  decide

/-- C1 (amended): `getattr`, `open` and `setattr` answer every inode other
than 1 with ENOENT and perform no underlying syscall; `release`, `fsync`,
`read` and `write` ignore the inode number entirely and act on the supplied
descriptor handle exactly as they would for inode 1. -/
theorem claim_C1_inode_gate (fs : FileMapperFs) (env : SysEnv)
    (rq : UidGidPid) (ino : Nat) (oflags : Int) (size : Option Nat)
    (ofh : Option Nat) (fh : Nat) (rflags : Int) (flush datasync : Bool)
    (offset : Int) (rsize : Nat) (data : List Nat)
    (h : ino ≠ 1) :
    fs.getattr env rq ino = (ReplyAttr.error ENOENT, []) ∧
    fs.open' env rq ino oflags = (ReplyOpen.error ENOENT, []) ∧
    fs.setattr env rq ino size ofh = (ReplyAttr.error ENOENT, []) ∧
    FileMapperFs.release fs env rq ino fh rflags flush
      = FileMapperFs.release fs env rq 1 fh rflags flush ∧
    FileMapperFs.fsync fs env rq ino fh datasync
      = FileMapperFs.fsync fs env rq 1 fh datasync ∧
    FileMapperFs.read fs env rq ino fh offset rsize rflags
      = FileMapperFs.read fs env rq 1 fh offset rsize rflags ∧
    FileMapperFs.write fs env rq ino fh offset data
      = FileMapperFs.write fs env rq 1 fh offset data := by
  unfold FileMapperFs.getattr FileMapperFs.open' FileMapperFs.setattr
  refine ⟨?_, ?_, ?_, rfl, rfl, rfl, rfl⟩ <;> simp [h]

/-- C1 (witness): the inode gate at the concrete inode 2. -/
theorem claim_C1_witness :
    (2 : Nat) ≠ 1 ∧
    fsW.getattr envW rqW 2 = (ReplyAttr.error ENOENT, []) ∧
    fsW.open' envW rqW 2 0 = (ReplyOpen.error ENOENT, []) ∧
    fsW.setattr envW rqW 2 none none = (ReplyAttr.error ENOENT, []) ∧
    FileMapperFs.release fsW envW rqW 2 3 0 false
      = FileMapperFs.release fsW envW rqW 1 3 0 false ∧
    FileMapperFs.fsync fsW envW rqW 2 3 false
      = FileMapperFs.fsync fsW envW rqW 1 3 false ∧
    FileMapperFs.read fsW envW rqW 2 3 0 100 0
      = FileMapperFs.read fsW envW rqW 1 3 0 100 0 ∧
    FileMapperFs.write fsW envW rqW 2 3 0 [1]
      = FileMapperFs.write fsW envW rqW 1 3 0 [1] := by
  refine ⟨by decide, ?_⟩
  have h := claim_C1_inode_gate fsW envW rqW 2 0 none none 3 0 false false
    0 100 [1] (by decide)
  exact ⟨h.1, h.2.1, h.2.2.1, h.2.2.2.1, h.2.2.2.2.1, h.2.2.2.2.2.1,
    h.2.2.2.2.2.2⟩

/-- C2 (counterexample): symlink content `net:123` is not of the form
`net:[<something>]` (the brackets are missing), yet resolution succeeds
and produces the backing path `/etc/netns-files/123.conf`. -/
theorem claim_C2_counterexample :
    (mapperW.map menvNoBrackets ⟨0, 0, 7⟩).result
      = some "/etc/netns-files/123.conf" ∧
    (mapperW.map menvNoBrackets ⟨0, 0, 7⟩).result ≠ none := by decide

/-- C2 (amended): resolution fails (returning no backing path and invoking
no copy) exactly in these cases: the symlink is unreadable, its content is
not UTF-8, the content has no `:`, or the part before the first `:` differs
from `net`.  Brackets are not required (they are merely trimmed when
present).  The resolver is a pure function of the resolver configuration
and filesystem state, so repeated calls with unchanged symlink content
yield the same result. -/
theorem claim_C2_malformed_fails (m : NetnsMapper) (env : MapperEnv)
    (rq : UidGidPid) :
    (env.read_link (m.procfs ++ "/" ++ toString rq.pid ++ "/ns/net") = none →
      m.map env rq = ⟨none, []⟩) ∧
    (env.read_link (m.procfs ++ "/" ++ toString rq.pid ++ "/ns/net")
        = some OsString.nonUtf8 →
      m.map env rq = ⟨none, []⟩) ∧
    (∀ s, env.read_link (m.procfs ++ "/" ++ toString rq.pid ++ "/ns/net")
        = some (OsString.utf8 s) →
      splitOnce ':' s.toList = none → m.map env rq = ⟨none, []⟩) ∧
    (∀ s pre suf,
      env.read_link (m.procfs ++ "/" ++ toString rq.pid ++ "/ns/net")
        = some (OsString.utf8 s) →
      splitOnce ':' s.toList = some (pre, suf) → String.mk pre ≠ "net" →
      m.map env rq = ⟨none, []⟩) := by
  refine ⟨fun h => ?_, fun h => ?_, fun s h hsp => ?_,
          fun s pre suf h hsp hpre => ?_⟩
  · unfold NetnsMapper.map
    dsimp only
    rw [h]
  · unfold NetnsMapper.map
    dsimp only
    rw [h]
    rfl
  · unfold NetnsMapper.map
    dsimp only
    rw [h]
    dsimp only [OsString.to_str]
    rw [hsp]
  · unfold NetnsMapper.map
    dsimp only
    rw [h]
    dsimp only [OsString.to_str]
    rw [hsp]
    dsimp only
    rw [if_pos (by simp [hpre])]

/-- C2 (witness): the wrong-prefix content `foo:[123]` fails, and an
unreadable symlink (pid 9 has none) fails. -/
theorem claim_C2_witness :
    mapperW.map menvFoo ⟨0, 0, 7⟩ = ⟨none, []⟩ ∧
    mapperW.map menvFoo ⟨0, 0, 9⟩ = ⟨none, []⟩ :=
  ⟨(claim_C2_malformed_fails mapperW menvFoo ⟨0, 0, 7⟩).2.2.2 "foo:[123]"
     "foo".toList "[123]".toList (by decide) (by decide) (by decide),
   (claim_C2_malformed_fails mapperW menvFoo ⟨0, 0, 9⟩).1 (by decide)⟩

/-- C3: with backing directory `/etc/netns-files`, extension `conf` and
procfs root `/proc`, a caller with pid 42 whose netns symlink reads
`net:[4026531992]` resolves to `/etc/netns-files/4026531992.conf`
(whatever the uid, gid, default-file setting and state of the target). -/
theorem claim_C3_scenario (env : MapperEnv) (u g : Nat) (df : Option String)
    (h : env.read_link "/proc/42/ns/net"
           = some (OsString.utf8 "net:[4026531992]")) :
    ((NetnsMapper.mk "/etc/netns-files" "conf" df "/proc").map env
        ⟨u, g, 42⟩).result
      = some "/etc/netns-files/4026531992.conf" := by
  have hres := map_success (NetnsMapper.mk "/etc/netns-files" "conf" df "/proc")
    env ⟨u, g, 42⟩ "net:[4026531992]"
    "net".toList "[4026531992]".toList
    (by
      dsimp only
      rw [show ("/proc" : String) ++ "/" ++ toString (42 : Nat) ++ "/ns/net"
            = "/proc/42/ns/net" from by decide]
      exact h)
    (by decide) (by decide)
  have ht : NetnsMapper.targetfileOf
      (NetnsMapper.mk "/etc/netns-files" "conf" df "/proc")
      ("[4026531992]" : String).toList
      = "/etc/netns-files/4026531992.conf" := by
    unfold NetnsMapper.targetfileOf
    dsimp only
    decide
  rw [hres, ht]

/-- C3 (witness): the scenario evaluated in the concrete filesystem state
`menvScenario`. -/
theorem claim_C3_witness :
    menvScenario.read_link "/proc/42/ns/net"
      = some (OsString.utf8 "net:[4026531992]") ∧
    ((NetnsMapper.mk "/etc/netns-files" "conf" none "/proc").map menvScenario
        ⟨0, 0, 42⟩).result
      = some "/etc/netns-files/4026531992.conf" :=
  ⟨by decide, claim_C3_scenario menvScenario 0 0 none (by decide)⟩

/-- C4: when the mapper signals no mapping for the caller identity, the three
path-resolving operations (`getattr`, `open`, `setattr`) reply ENOENT and
perform no underlying syscall; each operation is a total function that
returns a reply, so the failure is local to the request. -/
theorem claim_C4_resolution_failure (fs : FileMapperFs) (env : SysEnv)
    (rq : UidGidPid) (oflags : Int) (size : Option Nat) (ofh : Option Nat)
    (h : fs.mapper rq = none) :
    fs.getattr env rq 1 = (ReplyAttr.error ENOENT, []) ∧
    fs.open' env rq 1 oflags = (ReplyOpen.error ENOENT, []) ∧
    fs.setattr env rq 1 size ofh = (ReplyAttr.error ENOENT, []) := by
  unfold FileMapperFs.getattr FileMapperFs.open' FileMapperFs.setattr
    FileMapperFs.get_backing_file
  rw [h]
  refine ⟨?_, ?_, ?_⟩ <;> simp

/-- C4 (witness): the never-resolving mapper `fsNone` at a concrete
request. -/
theorem claim_C4_witness :
    fsNone.mapper rqW = none ∧
    fsNone.getattr envW rqW 1 = (ReplyAttr.error ENOENT, []) ∧
    fsNone.open' envW rqW 1 0 = (ReplyOpen.error ENOENT, []) ∧
    fsNone.setattr envW rqW 1 (some 0) none = (ReplyAttr.error ENOENT, []) :=
  ⟨rfl, claim_C4_resolution_failure fsNone envW rqW 0 (some 0) none rfl⟩

/-- C5: `read` performs exactly one positioned read, at the given offset,
with the requested length clamped to 65536 (4096×16); every data reply
contains at most 65536 bytes, and when the underlying read returns at most
the clamped length (as a real `pread` does) the reply is exactly those
bytes — short reads are not retried. -/
theorem claim_C5_read_clamp (fs : FileMapperFs) (env : SysEnv)
    (rq : UidGidPid) (ino fh : Nat) (offset : Int) (size : Nat)
    (rflags : Int) (bs : List Nat)
    (h : env.pread (u64_as_i32 fh) (min size 65536) offset = .ok bs) :
    (FileMapperFs.read fs env rq ino fh offset size rflags).2
      = [Syscall.pread (u64_as_i32 fh) (min size 65536) offset] ∧
    (∀ out, (FileMapperFs.read fs env rq ino fh offset size rflags).1
        = ReplyData.data out → out.length ≤ 65536) ∧
    (bs.length ≤ min size 65536 →
      (FileMapperFs.read fs env rq ino fh offset size rflags).1
        = ReplyData.data bs) := by
  unfold FileMapperFs.read
  dsimp only
  rw [show (4096 * 16 : Nat) = 65536 from rfl, h]
  dsimp only
  refine ⟨rfl, ?_, ?_⟩
  · intro out hout
    have hx := (ReplyData.data.inj hout).symm
    subst hx
    have hbuf : (bs.take (min size 65536)
        ++ List.replicate (min size 65536 - bs.length) 0).length
        = min size 65536 := by
      simp [List.length_take]
      omega
    calc ((bs.take (min size 65536)
          ++ List.replicate (min size 65536 - bs.length) 0).take
            bs.length).length
        ≤ (bs.take (min size 65536)
          ++ List.replicate (min size 65536 - bs.length) 0).length := by
          simp [List.length_take]
      _ ≤ 65536 := by rw [hbuf]; omega
  · intro hl
    rw [List.take_of_length_le hl]
    have hleft := List.take_left bs
      (List.replicate (min size 65536 - bs.length) (0 : Nat))
    rw [hleft]

/-- C5 (witness): a concrete read of requested length 100 in `envW`, whose
`pread` yields the single byte `[7]`. -/
theorem claim_C5_witness :
    envW.pread (u64_as_i32 3) (min 100 65536) 0 = .ok [7] ∧
    ((FileMapperFs.read fsW envW rqW 1 3 0 100 0).2
      = [Syscall.pread (u64_as_i32 3) (min 100 65536) 0] ∧
    (∀ out, (FileMapperFs.read fsW envW rqW 1 3 0 100 0).1
        = ReplyData.data out → out.length ≤ 65536) ∧
    (List.length [7] ≤ min 100 65536 →
      (FileMapperFs.read fsW envW rqW 1 3 0 100 0).1
        = ReplyData.data [7])) :=
  ⟨rfl, claim_C5_read_clamp fsW envW rqW 1 3 0 100 0 [7] rfl⟩

/-- C6: whenever the resolver returns a target path whose metadata query
succeeds (the file exists), no copy from the default template is invoked,
regardless of the template configuration. -/
theorem claim_C6_no_copy_when_exists (m : NetnsMapper) (env : MapperEnv)
    (rq : UidGidPid) (t : String)
    (h1 : (m.map env rq).result = some t) (h2 : env.metadata_ok t = true) :
    (m.map env rq).copies = [] := by
  unfold NetnsMapper.map at h1 ⊢
  dsimp only at h1 ⊢
  cases hrl : env.read_link (m.procfs ++ "/" ++ toString rq.pid ++ "/ns/net") with
  | none => rw [hrl] at h1
  | some content =>
    rw [hrl] at h1
    cases content with
    | nonUtf8 => exact absurd h1 (by simp [OsString.to_str])
    | utf8 s =>
      simp only [OsString.to_str] at h1 ⊢
      cases hsp : splitOnce ':' s.toList with
      | none => rw [hsp] at h1
      | some p =>
        obtain ⟨pre, suf⟩ := p
        rw [hsp] at h1
        dsimp only at h1 ⊢
        by_cases hpre : String.mk pre = "net"
        · rw [if_neg (by simp [hpre])] at h1 ⊢
          cases hdf : m.default_file with
          | none => rfl
          | some deffile =>
            rw [hdf] at h1
            dsimp only at h1 ⊢
            by_cases hmo : env.metadata_ok (m.targetfileOf suf) = true
            · rw [if_pos hmo]
            · rw [if_neg hmo] at h1
              simp only [Option.some.injEq] at h1
              subst h1
              exact absurd h2 hmo
        · rw [if_pos (by simp [hpre])] at h1
          simp at h1

/-- C6 (witness): with a default file configured and the target already
existing (`menvExists`), no copy happens. -/
theorem claim_C6_witness :
    (mapperDef.map menvExists ⟨0, 0, 42⟩).result
      = some "/etc/netns-files/4026531992.conf" ∧
    menvExists.metadata_ok "/etc/netns-files/4026531992.conf" = true ∧
    (mapperDef.map menvExists ⟨0, 0, 42⟩).copies = [] :=
  ⟨by decide, by decide,
   claim_C6_no_copy_when_exists mapperDef menvExists ⟨0, 0, 42⟩
     "/etc/netns-files/4026531992.conf" (by decide) (by decide)⟩

/-- C7: when the netns symlink parses (readable, UTF-8, `net:` prefix), the
resolver returns the constructed target path, and that returned path is
unchanged under any outcomes of the target-existence metadata query and of
the template copy — non-existence of the target, or a failed seeding copy,
never turns resolution into a failure. -/
theorem claim_C7_returns_path (m : NetnsMapper) (rl : String → Option OsString)
    (mo mo' : String → Bool) (co co' : String → String → Bool)
    (rq : UidGidPid) (s : String) (pre suf : List Char)
    (h : rl (m.procfs ++ "/" ++ toString rq.pid ++ "/ns/net")
           = some (OsString.utf8 s))
    (hsp : splitOnce ':' s.toList = some (pre, suf))
    (hpre : String.mk pre = "net") :
    (m.map ⟨rl, mo, co⟩ rq).result = some (m.targetfileOf suf) ∧
    (m.map ⟨rl, mo, co⟩ rq).result = (m.map ⟨rl, mo', co'⟩ rq).result :=
  ⟨map_success m ⟨rl, mo, co⟩ rq s pre suf h hsp hpre,
   map_result_env_indep m rl mo mo' co co' rq⟩

/-- C7 (witness): with a template configured, a missing target and a
failing copy (`menvScenario`: metadata and copy always fail), resolution
still returns the target path, and it equals the result under an
always-succeeding environment. -/
theorem claim_C7_witness :
    (mapperDef.map menvScenario ⟨0, 0, 42⟩).result
      = some (mapperDef.targetfileOf "[4026531992]".toList) ∧
    (mapperDef.map menvScenario ⟨0, 0, 42⟩).result
      = (mapperDef.map ⟨menvScenario.read_link,
          fun _ => true, fun _ _ => true⟩ ⟨0, 0, 42⟩).result :=
  claim_C7_returns_path mapperDef menvScenario.read_link
    (fun _ => false) (fun _ => true) (fun _ _ => false) (fun _ _ => true)
    ⟨0, 0, 42⟩ "net:[4026531992]" "net".toList "[4026531992]".toList
    (by decide) (by decide) (by decide)

/-- C8: a `setattr` on inode 1 carrying a new size truncates the open
descriptor when a handle is supplied and the freshly resolved backing path
when it is not, and in either case the reply is exactly the one
`getattr_impl` builds from the resolved path — which is precisely how
`getattr` (attributes-query) replies for the same request. -/
theorem claim_C8_setattr_truncate (fs : FileMapperFs) (env : SysEnv)
    (rq : UidGidPid) (sz hdl : Nat) (bf : String)
    (hm : fs.mapper rq = some bf)
    (hft : env.ftruncate (u64_as_i32 hdl) (u64_as_i64 sz) = .ok ())
    (htr : env.truncate bf (u64_as_i64 sz) = .ok ()) :
    fs.setattr env rq 1 (some sz) (some hdl)
      = ((getattr_impl env bf 1).1,
         Syscall.ftruncate (u64_as_i32 hdl) (u64_as_i64 sz)
           :: (getattr_impl env bf 1).2) ∧
    fs.setattr env rq 1 (some sz) none
      = ((getattr_impl env bf 1).1,
         Syscall.truncate bf (u64_as_i64 sz) :: (getattr_impl env bf 1).2) ∧
    (fs.setattr env rq 1 (some sz) (some hdl)).1 = (fs.getattr env rq 1).1 ∧
    (fs.setattr env rq 1 (some sz) none).1 = (fs.getattr env rq 1).1 := by
  unfold FileMapperFs.setattr FileMapperFs.getattr FileMapperFs.get_backing_file
  rw [hm]
  dsimp only
  rw [hft, htr]
  refine ⟨rfl, rfl, ?_, ?_⟩ <;> simp

/-- C8 (witness): a size-0 `setattr` in `envW`, with and without a handle,
against the backing file resolved by `fsW`. -/
theorem claim_C8_witness :
    fsW.mapper rqW = some "/backing/file.conf" ∧
    envW.ftruncate (u64_as_i32 5) (u64_as_i64 0) = .ok () ∧
    envW.truncate "/backing/file.conf" (u64_as_i64 0) = .ok () ∧
    (fsW.setattr envW rqW 1 (some 0) (some 5)
      = ((getattr_impl envW "/backing/file.conf" 1).1,
         Syscall.ftruncate (u64_as_i32 5) (u64_as_i64 0)
           :: (getattr_impl envW "/backing/file.conf" 1).2) ∧
    fsW.setattr envW rqW 1 (some 0) none
      = ((getattr_impl envW "/backing/file.conf" 1).1,
         Syscall.truncate "/backing/file.conf" (u64_as_i64 0)
           :: (getattr_impl envW "/backing/file.conf" 1).2) ∧
    (fsW.setattr envW rqW 1 (some 0) (some 5)).1
      = (fsW.getattr envW rqW 1).1 ∧
    (fsW.setattr envW rqW 1 (some 0) none).1
      = (fsW.getattr envW rqW 1).1) :=
  ⟨rfl, rfl, rfl,
   claim_C8_setattr_truncate fsW envW rqW 0 5 "/backing/file.conf"
     rfl rfl rfl⟩

/-- C9: a successful `write` performs exactly one positioned write of the
whole buffer at the given offset and replies with the count the underlying
`pwrite` returned, reduced modulo 2^32 (the `ret as u32` truncation noted
as a FIXME in the source). -/
theorem claim_C9_write_count (fs : FileMapperFs) (env : SysEnv)
    (rq : UidGidPid) (ino fh : Nat) (offset : Int) (data : List Nat) (n : Nat)
    (h : env.pwrite (u64_as_i32 fh) data.length offset = .ok n) :
    FileMapperFs.write fs env rq ino fh offset data
      = (ReplyWrite.written (n % 2 ^ 32),
         [Syscall.pwrite (u64_as_i32 fh) data.length offset]) := by
  unfold FileMapperFs.write
  dsimp only
  rw [h]

/-- C9 (witness): in `envBig` the underlying `pwrite` reports 2^32 + 5
bytes written; the reply carries the truncated count 5. -/
theorem claim_C9_witness :
    envBig.pwrite (u64_as_i32 3) (List.length [1, 2]) 0 = .ok 4294967301 ∧
    FileMapperFs.write fsW envBig rqW 1 3 0 [1, 2]
      = (ReplyWrite.written (4294967301 % 2 ^ 32),
         [Syscall.pwrite (u64_as_i32 3) (List.length [1, 2]) 0]) :=
  ⟨rfl, claim_C9_write_count fsW envBig rqW 1 3 0 [1, 2] 4294967301 rfl⟩

/-- C10: the namespace-aware resolver reads only the pid of the caller
identity: two identities with equal pid produce identical resolution
results (path and copy behaviour alike) in any filesystem state. -/
theorem claim_C10_pid_only (m : NetnsMapper) (env : MapperEnv)
    (rq1 rq2 : UidGidPid) (h : rq1.pid = rq2.pid) :
    m.map env rq1 = m.map env rq2 := by
  unfold NetnsMapper.map
  rw [h]

/-- C10 (witness): two identities with different uid/gid but pid 42
resolve identically. -/
theorem claim_C10_witness :
    (UidGidPid.mk 1 2 42).pid = (UidGidPid.mk 3 4 42).pid ∧
    mapperW.map menvScenario ⟨1, 2, 42⟩ = mapperW.map menvScenario ⟨3, 4, 42⟩ :=
  ⟨rfl, claim_C10_pid_only mapperW menvScenario ⟨1, 2, 42⟩ ⟨3, 4, 42⟩ rfl⟩

end Resolvconffs
